import Mathlib

/-!
Shallow embedding of the ResumeGrader frontend (tosoham/ResumeGrader).

The repository contains three revisions of the single React component `App`:
  * `src/src/App.jsx`      — embedded here with suffix `_App`
  * `src/unnamed/part_000` — embedded here with suffix `_part000`
  * `src/unnamed/part_001` — embedded here with suffix `_part001`

Each revision has three pieces of state (`files`, `response`, `loading`),
an async `handleUpload` function that POSTs a `FormData` body via axios,
and a JSX tree that renders the upload controls and, conditionally, a
result panel from the `response` value.

JavaScript runtime values that can flow through `response` are modelled by
`JValue`; member access, optional chaining, truthiness, `Array.map`,
`Array.join` and React child rendering are modelled by small executable
functions whose error cases (`TypeError` on member access of
null/undefined, `TypeError` when `.map` is called on a non-array) are
surfaced through `Except`.
-/

namespace ResumeGrader

/-- A JavaScript runtime value, as far as the component can observe it. -/
inductive JValue where
  | jsUndefined
  | null
  | bool (b : Bool)
  | num (n : Int)
  | str (s : String)
  | arr (elems : List JValue)
  | obj (fields : List (String × JValue))

/-- JavaScript runtime errors that the component code can raise. -/
inductive JsErr where
  | typeError
  | referenceError
deriving Repr, DecidableEq

/-- JavaScript truthiness of a `JValue`. -/
def truthy : JValue → Bool
  | .jsUndefined => false
  | .null => false
  | .bool b => b
  | .num n => n != 0
  | .str s => !s.isEmpty
  | .arr _ => true
  | .obj _ => true

/-- First binding of a key in an object literal field list. -/
def lookupField : List (String × JValue) → String → Option JValue
  | [], _ => none
  | (k, v) :: rest, key => if k = key then some v else lookupField rest key

/-- Member access `v.k`: throws `TypeError` on null/undefined, yields the
field (or `undefined`) on objects, `length` on arrays, `undefined` on other
primitives. -/
def member : JValue → String → Except JsErr JValue
  | .jsUndefined, _ => .error .typeError
  | .null, _ => .error .typeError
  | .obj fs, k => .ok ((lookupField fs k).getD .jsUndefined)
  | .arr xs, k => .ok (if k = "length" then .num xs.length else .jsUndefined)
  | _, _ => .ok .jsUndefined

/-- Optional chaining `v?.k`: null/undefined short-circuit to `undefined`. -/
def optMember (v : JValue) (k : String) : Except JsErr JValue :=
  match v with
  | .jsUndefined => .ok .jsUndefined
  | .null => .ok .jsUndefined
  | _ => member v k

/-- JavaScript `x || y` on values. -/
def jsOr (x y : JValue) : JValue := if truthy x then x else y

/-- JavaScript `x || y` on strings (empty string is falsy). -/
def jsOrStr (x y : String) : String := if x.isEmpty then y else x

/-- JavaScript `v > 0` as it is used on `.length` results: true only for a
number greater than zero (comparisons involving `undefined` are false). -/
def gtZero : JValue → Bool
  | .num n => 0 < n
  | _ => false

/-- Calling `.map` on a value: only arrays succeed; on null/undefined the
member access itself throws, on other values the property is `undefined`
and calling it throws. -/
def callMap (v : JValue) : Except JsErr (List JValue) :=
  match v with
  | .arr xs => .ok xs
  | _ => .error .typeError

/-- Stringification used by `Array.prototype.join` (nested arrays are not
modelled; none occur in the data shapes the component consumes). -/
def joinToString : JValue → String
  | .jsUndefined => ""
  | .null => ""
  | .bool b => if b then "true" else "false"
  | .num n => toString n
  | .str s => s
  | .arr _ => ""
  | .obj _ => "[object Object]"

/-- Calling `.join(sep)` on a value: only arrays succeed. -/
def callJoin (v : JValue) (sep : String) : Except JsErr String :=
  match v with
  | .arr xs => .ok (String.intercalate sep (xs.map joinToString))
  | _ => .error .typeError

mutual

/-- Text fragments a `JValue` contributes as a React child:
null/undefined/booleans render nothing, numbers and strings render their
text, arrays render their elements in order, plain objects are not valid
React children and throw. -/
def jsxChildText : JValue → Except JsErr (List String)
  | .jsUndefined => .ok []
  | .null => .ok []
  | .bool _ => .ok []
  | .num n => .ok [toString n]
  | .str s => .ok [s]
  | .obj _ => .error .typeError
  | .arr xs => jsxChildList xs

/-- Text fragments of a list of React children, in order. -/
def jsxChildList : List JValue → Except JsErr (List String)
  | [] => .ok []
  | v :: rest => do
      let a ← jsxChildText v
      let b ← jsxChildList rest
      return a ++ b

end

/-- A File object obtained from the file input. -/
structure FileObj where
  name : String
  content : List Nat
deriving Repr, DecidableEq

/-- The `files` state variable. Across the revisions it holds `null`
(initial value), a whole `FileList` (`e.target.files`, stored by
`src/src/App.jsx`), a single `File` (`e.target.files[0]`, stored by
`part_000` and `part_001`), or `undefined` (`e.target.files[0]` of an
empty selection). -/
inductive FileSel where
  | nullSel
  | undefSel
  | fileList (fs : List FileObj)
  | single (f : FileObj)
deriving Repr, DecidableEq

/-- JavaScript truthiness of the `files` state: only `null` and
`undefined` are falsy; any `File` or `FileList` object is truthy. -/
def fileSelTruthy : FileSel → Bool
  | .nullSel => false
  | .undefSel => false
  | .fileList _ => true
  | .single _ => true

/-- A value stored in a multipart form entry: `FormData.append` keeps
Blob/File arguments as file parts and stringifies everything else. -/
inductive FormValue where
  | filePart (f : FileObj)
  | stringPart (s : String)
deriving Repr, DecidableEq

/-- `FormData.append(name, files)` semantics for each possible `files`
state: a `File` stays a file part; a `FileList` is not a Blob and is
stringified to "[object FileList]"; `null` and `undefined` are
stringified too. -/
def formDataValue : FileSel → FormValue
  | .single f => .filePart f
  | .fileList _ => .stringPart "[object FileList]"
  | .nullSel => .stringPart "null"
  | .undefSel => .stringPart "undefined"

/-- One entry of a multipart form body. -/
structure FormPart where
  fieldName : String
  value : FormValue
deriving Repr, DecidableEq

/-- One outbound HTTP POST request. -/
structure Request where
  url : String
  parts : List FormPart
deriving Repr, DecidableEq

/-- The `response` state variable: `null` initially, the server body
`res.data` after a success, or (in `part_000`) the caught error object. -/
inductive StoredResponse where
  | absent
  | data (v : JValue)
  | errorObject

/-- Component state at the moment `handleUpload` is invoked. -/
structure AppState where
  files : FileSel
  response : StoredResponse
  loading : Bool

/-- How the awaited `axios.post` settles: a 2xx response with a parsed
body, or a failure (network error, non-2xx status, unparseable body —
axios rejects the promise in all three cases). -/
inductive HttpOutcome where
  | success (body : JValue)
  | failure

/-- Observable effects of one `handleUpload` execution: the requests it
issued, the final `loading` and `response` states, whether it logged the
error to the diagnostic console, and the exception escaping it, if any. -/
structure SubmitResult where
  requests : List Request
  loading : Bool
  response : StoredResponse
  loggedError : Bool
  escapedException : Option JsErr

/-- `handleUpload` of `src/src/App.jsx`: appends `files` under the field
name "resume", POSTs to http://localhost:3000/uploads; on success clears
`loading` and stores `res.data`; the catch block `catch(e){ setResponse(err) }`
evaluates the unbound name `err`, so a `ReferenceError` escapes before any
setter runs and `loading` stays true. -/
def handleUpload_App (st : AppState) (outcome : HttpOutcome) : SubmitResult :=
  let req : Request := ⟨"http://localhost:3000/uploads", [⟨"resume", formDataValue st.files⟩]⟩
  match outcome with
  | .success body =>
      { requests := [req], loading := false, response := .data body,
        loggedError := false, escapedException := none }
  | .failure =>
      { requests := [req], loading := true, response := st.response,
        loggedError := false, escapedException := some .referenceError }

/-- `handleUpload` of `part_000`: appends `files` under the field name
"file", POSTs to http://localhost:8000/upload-resume; on success clears
`loading` and stores `res.data`; the catch block stores the caught error
object in `response` and leaves `loading` true. -/
def handleUpload_part000 (st : AppState) (outcome : HttpOutcome) : SubmitResult :=
  let req : Request := ⟨"http://localhost:8000/upload-resume", [⟨"file", formDataValue st.files⟩]⟩
  match outcome with
  | .success body =>
      { requests := [req], loading := false, response := .data body,
        loggedError := false, escapedException := none }
  | .failure =>
      { requests := [req], loading := true, response := .errorObject,
        loggedError := false, escapedException := none }

/-- Module-level `url` of `part_001`: the template literal stringifies
`import.meta.env.VITE_API_URL` (an absent value becomes the string
"undefined"), and only then is `||` applied. -/
def templateEnvVar : Option String → String
  | some s => s
  | none => "undefined"

/-- `url` of `part_001` as a function of the environment value. -/
def baseUrl_part001 (env : Option String) : String :=
  jsOrStr (templateEnvVar env) "http://localhost:8000"

/-- `handleUpload` of `part_001`: appends `files` under the field name
"file", POSTs to the configurable base URL plus "/grade-resume"; on
success clears `loading` and stores `res.data`; the catch block clears
`loading`, resets `response` to null and logs the error via
`console.error`. -/
def handleUpload_part001 (env : Option String) (st : AppState) (outcome : HttpOutcome) :
    SubmitResult :=
  let req : Request := ⟨baseUrl_part001 env ++ "/grade-resume", [⟨"file", formDataValue st.files⟩]⟩
  match outcome with
  | .success body =>
      { requests := [req], loading := false, response := .data body,
        loggedError := false, escapedException := none }
  | .failure =>
      { requests := [req], loading := false, response := .absent,
        loggedError := true, escapedException := none }

/-- File-input change handler of `src/src/App.jsx`:
`setFiles(e.target.files)` stores the whole `FileList`. -/
def selectFile_App (targetFiles : List FileObj) : FileSel :=
  .fileList targetFiles

/-- File-input change handler of `part_000` and `part_001`:
`setFiles(e.target.files[0])` stores the first file, or `undefined` when
the selection is empty. -/
def selectFile_part00x (targetFiles : List FileObj) : FileSel :=
  match targetFiles with
  | [] => .undefSel
  | f :: _ => .single f

/-- The `response` state as the JavaScript value the JSX reads. -/
def storedToJValue : StoredResponse → JValue
  | .absent => .null
  | .data v => v
  | .errorObject => .obj [("message", .str "Upload failed")]

/-- Renders each element of a mapped list and concatenates the fragments,
failing as soon as one element fails. -/
def mapRender (f : JValue → Except JsErr (List String)) :
    List JValue → Except JsErr (List String)
  | [] => .ok []
  | v :: rest => do
      let a ← f v
      let b ← mapRender f rest
      return a ++ b

/-- Result panel of `src/src/App.jsx`:
`response && (Score: response.score /100, response.tips.map(...))`.
When `response` is truthy but has no `tips` array, `response.tips.map`
throws a `TypeError`. -/
def renderPanel_App (response : JValue) : Except JsErr (List String) := do
  if !truthy response then return []
  let score ← member response "score"
  let scoreText ← jsxChildText score
  let tips ← member response "tips"
  let tipList ← callMap tips
  let tipTexts ← mapRender jsxChildText tipList
  return ["Score: "] ++ scoreText ++ ["/100"] ++ tipTexts

/-- Result panel of `part_000`:
`response && response.parsed_data.personal_info.name`. When `response` is
truthy but `parsed_data` is absent, the chained member access throws a
`TypeError`. -/
def renderPanel_part000 (response : JValue) : Except JsErr (List String) := do
  if !truthy response then return []
  let pd ← member response "parsed_data"
  let pinfo ← member pd "personal_info"
  let name ← member pinfo "name"
  jsxChildText name

/-- The section-score placeholder of `part_001`:
`response.grading_result.section_scores?.key || 'N/A'` — JavaScript `||`
tests truthiness, so a score of 0 falls through to the placeholder. -/
def scorePlaceholder (v : JValue) : JValue := jsOr v (.str "N/A")

/-- One section-score fragment of the `part_001` header. -/
def sectionScoreText (gr : JValue) (key : String) : Except JsErr (List String) := do
  let scores ← member gr "section_scores"
  let v ← optMember scores key
  jsxChildText (scorePlaceholder v)

/-- Personal Information section of `part_001`, guarded by
`response.parsed_data?.personal_info`. -/
def renderPersonalInfo (response : JValue) : Except JsErr (List String) := do
  let pd ← member response "parsed_data"
  let pinfo ← optMember pd "personal_info"
  if !truthy pinfo then return []
  let nameT ← jsxChildText (← member pinfo "name")
  let emailT ← jsxChildText (← member pinfo "email")
  let phoneT ← jsxChildText (← member pinfo "phone")
  let addr ← member pinfo "address"
  let addrT ← if truthy addr then do
      let t ← jsxChildText addr
      pure (["Address: "] ++ t)
    else pure []
  let linkedin ← member pinfo "linkedin"
  let linkedinT ← if truthy linkedin then do
      let t ← jsxChildText linkedin
      pure (["LinkedIn: "] ++ t)
    else pure []
  let github ← member pinfo "github"
  let githubT ← if truthy github then do
      let t ← jsxChildText github
      pure (["GitHub: "] ++ t)
    else pure []
  return ["Personal Information", "Name: "] ++ nameT ++ ["Email: "] ++ emailT
    ++ ["Phone: "] ++ phoneT ++ addrT ++ linkedinT ++ githubT

/-- One Education entry of `part_001`. -/
def renderEduItem (edu : JValue) : Except JsErr (List String) := do
  let instT ← jsxChildText (← member edu "institution")
  let degreeT ← jsxChildText (← member edu "degree")
  let fieldT ← jsxChildText (← member edu "field_of_study")
  let yearT ← jsxChildText (← member edu "year")
  let gpa ← member edu "gpa"
  let gpaT ← if truthy gpa then do
      let t ← jsxChildText gpa
      pure (["GPA: "] ++ t)
    else pure []
  return instT ++ degreeT ++ [" in "] ++ fieldT ++ yearT ++ gpaT

/-- Education section of `part_001`, guarded by
`response.parsed_data?.education && response.parsed_data.education.length > 0`. -/
def renderEducation (response : JValue) : Except JsErr (List String) := do
  let pd ← member response "parsed_data"
  let edus ← optMember pd "education"
  if !truthy edus then return []
  let pd2 ← member response "parsed_data"
  let edus2 ← member pd2 "education"
  let len ← member edus2 "length"
  if !gtZero len then return []
  let pd3 ← member response "parsed_data"
  let edus3 ← member pd3 "education"
  let items ← callMap edus3
  let body ← mapRender renderEduItem items
  return ["Education"] ++ body

/-- One Experience entry of `part_001`, with its conditional
Key Achievements list. -/
def renderExpItem (entry : JValue) : Except JsErr (List String) := do
  let positionT ← jsxChildText (← member entry "position")
  let companyT ← jsxChildText (← member entry "company")
  let durationT ← jsxChildText (← member entry "duration")
  let descT ← jsxChildText (← member entry "description")
  let ka ← member entry "key_achievements"
  let kaT ← if truthy ka then do
      let ka2 ← member entry "key_achievements"
      let len ← member ka2 "length"
      if gtZero len then do
        let ka3 ← member entry "key_achievements"
        let items ← callMap ka3
        let ts ← mapRender jsxChildText items
        pure (["Key Achievements:"] ++ ts)
      else pure []
    else pure []
  return positionT ++ [" at "] ++ companyT ++ durationT ++ descT ++ kaT

/-- Experience section of `part_001`, guarded by
`response.parsed_data?.experience && response.parsed_data.experience.length > 0`. -/
def renderExperience (response : JValue) : Except JsErr (List String) := do
  let pd ← member response "parsed_data"
  let exps ← optMember pd "experience"
  if !truthy exps then return []
  let pd2 ← member response "parsed_data"
  let exps2 ← member pd2 "experience"
  let len ← member exps2 "length"
  if !gtZero len then return []
  let pd3 ← member response "parsed_data"
  let exps3 ← member pd3 "experience"
  let items ← callMap exps3
  let body ← mapRender renderExpItem items
  return ["Experience"] ++ body

/-- Skills section of `part_001`, guarded by
`response.parsed_data?.skills && response.parsed_data.skills.length > 0`. -/
def renderSkills (response : JValue) : Except JsErr (List String) := do
  let pd ← member response "parsed_data"
  let sk ← optMember pd "skills"
  if !truthy sk then return []
  let pd2 ← member response "parsed_data"
  let sk2 ← member pd2 "skills"
  let len ← member sk2 "length"
  if !gtZero len then return []
  let pd3 ← member response "parsed_data"
  let sk3 ← member pd3 "skills"
  let items ← callMap sk3
  let ts ← mapRender jsxChildText items
  return ["Skills"] ++ ts

/-- One Projects entry of `part_001`, with conditional technologies,
duration and link. -/
def renderProjItem (proj : JValue) : Except JsErr (List String) := do
  let nameT ← jsxChildText (← member proj "name")
  let descT ← jsxChildText (← member proj "description")
  let tech ← member proj "technologies"
  let techT ← if truthy tech then do
      let tech2 ← member proj "technologies"
      let len ← member tech2 "length"
      if gtZero len then do
        let tech3 ← member proj "technologies"
        let joined ← callJoin tech3 ", "
        pure (["Technologies:", joined])
      else pure []
    else pure []
  let duration ← member proj "duration"
  let durationT ← if truthy duration then do
      let t ← jsxChildText duration
      pure (["Duration:"] ++ t)
    else pure []
  let urlv ← member proj "url"
  let urlT ← if truthy urlv then pure ["Project Link"] else pure ([] : List String)
  return nameT ++ descT ++ techT ++ durationT ++ urlT

/-- Projects section of `part_001`, guarded by
`response.parsed_data?.projects && response.parsed_data.projects.length > 0`. -/
def renderProjects (response : JValue) : Except JsErr (List String) := do
  let pd ← member response "parsed_data"
  let pr ← optMember pd "projects"
  if !truthy pr then return []
  let pd2 ← member response "parsed_data"
  let pr2 ← member pd2 "projects"
  let len ← member pr2 "length"
  if !gtZero len then return []
  let pd3 ← member response "parsed_data"
  let pr3 ← member pd3 "projects"
  let items ← callMap pr3
  let body ← mapRender renderProjItem items
  return ["Projects"] ++ body

/-- Strengths section of `part_001`, guarded by
`response.grading_result.strengths && ...length > 0`. -/
def renderStrengths (gr : JValue) : Except JsErr (List String) := do
  let s ← member gr "strengths"
  if !truthy s then return []
  let s2 ← member gr "strengths"
  let len ← member s2 "length"
  if !gtZero len then return []
  let s3 ← member gr "strengths"
  let items ← callMap s3
  let ts ← mapRender jsxChildText items
  return ["Strengths"] ++ ts

/-- Resume Improvement Tips section of `part_001`, guarded by
`response.grading_result.tips && ...length > 0`. -/
def renderTips (gr : JValue) : Except JsErr (List String) := do
  let t ← member gr "tips"
  if !truthy t then return []
  let t2 ← member gr "tips"
  let len ← member t2 "length"
  if !gtZero len then return []
  let t3 ← member gr "tips"
  let items ← callMap t3
  let ts ← mapRender jsxChildText items
  return ["Resume Improvement Tips"] ++ ts

/-- Detailed Feedback section of `part_001`, guarded by
`response.grading_result.detailed_feedback`. -/
def renderFeedback (gr : JValue) : Except JsErr (List String) := do
  let df ← member gr "detailed_feedback"
  if !truthy df then return []
  let t ← jsxChildText df
  return ["Detailed Feedback"] ++ t

/-- Result panel of `part_001`, guarded by
`response && response.grading_result`: the overall-score header with the
five section-score placeholders, then the conditional Personal
Information, Education, Experience, Skills, Projects, Strengths, Tips and
Detailed Feedback sections. -/
def renderPanel_part001 (response : JValue) : Except JsErr (List String) := do
  if !truthy response then return []
  let gr ← member response "grading_result"
  if !truthy gr then return []
  let overallT ← jsxChildText (← member gr "overall_score")
  let piScore ← sectionScoreText gr "personal_info"
  let expScore ← sectionScoreText gr "experience"
  let eduScore ← sectionScoreText gr "education"
  let skScore ← sectionScoreText gr "skills"
  let prScore ← sectionScoreText gr "projects"
  let piSec ← renderPersonalInfo response
  let eduSec ← renderEducation response
  let expSec ← renderExperience response
  let skSec ← renderSkills response
  let prSec ← renderProjects response
  let stSec ← renderStrengths gr
  let tipsSec ← renderTips gr
  let fbSec ← renderFeedback gr
  return ["Your Overall Score is "] ++ overallT
    ++ [" out of 100 and your section scores are: personal info "] ++ piScore
    ++ [", experience "] ++ expScore ++ [", education "] ++ eduScore
    ++ [", skills "] ++ skScore ++ [", projects "] ++ prScore
    ++ piSec ++ eduSec ++ expSec ++ skSec ++ prSec ++ stSec ++ tipsSec ++ fbSec

/-- What one render of a revision shows: the static upload controls
(heading, file input, upload button with its disabled flag), the loading
spinner, and the result panel (or the error a render throws). -/
structure PageView where
  headerText : String
  fileInputShown : Bool
  uploadButtonShown : Bool
  uploadDisabled : Bool
  spinnerShown : Bool
  panel : Except JsErr (List String)

/-- Full render of `src/src/App.jsx`: the upload button carries no
`disabled` attribute. -/
def renderPage_App (st : AppState) : PageView :=
  { headerText := "Automated Resume Grader", fileInputShown := true,
    uploadButtonShown := true, uploadDisabled := false,
    spinnerShown := st.loading,
    panel := renderPanel_App (storedToJValue st.response) }

/-- Full render of `part_000`: the upload button carries no `disabled`
attribute. -/
def renderPage_part000 (st : AppState) : PageView :=
  { headerText := "Automated Resume Grader", fileInputShown := true,
    uploadButtonShown := true, uploadDisabled := false,
    spinnerShown := st.loading,
    panel := renderPanel_part000 (storedToJValue st.response) }

/-- Full render of `part_001`: the upload button is disabled exactly when
`!files || loading`. -/
def renderPage_part001 (st : AppState) : PageView :=
  { headerText := "Automated Resume Grader", fileInputShown := true,
    uploadButtonShown := true,
    uploadDisabled := !fileSelTruthy st.files || st.loading,
    spinnerShown := st.loading,
    panel := renderPanel_part001 (storedToJValue st.response) }

/-- Does a form value carry a file (Blob) payload, as opposed to a
stringified one? -/
def isFilePart : FormValue → Bool
  | .filePart _ => true
  | .stringPart _ => false

/-- A concrete PDF file used as test input. -/
def exampleFile : FileObj := ⟨"resume.pdf", [37, 80, 68, 70]⟩

/-- Response body with only grading_result.overall_score = 72 present. -/
def c5Input : JValue :=
  .obj [("grading_result", .obj [("overall_score", .num 72)])]

/-- Result panel `part_001` produces for `c5Input`. -/
def c5Output : List String :=
  ["Your Overall Score is ", "72",
   " out of 100 and your section scores are: personal info ", "N/A",
   ", experience ", "N/A", ", education ", "N/A",
   ", skills ", "N/A", ", projects ", "N/A"]

/-- Response body whose skills section score is present but equal to 0. -/
def c10InputZero : JValue :=
  .obj [("grading_result",
    .obj [("overall_score", .num 50),
          ("section_scores", .obj [("skills", .num 0)])])]

/-- Response body whose skills section score is missing. -/
def c10InputMissing : JValue :=
  .obj [("grading_result",
    .obj [("overall_score", .num 50),
          ("section_scores", .obj [])])]

/-- Result panel `part_001` produces for both `c10InputZero` and
`c10InputMissing`. -/
def c10Output : List String :=
  ["Your Overall Score is ", "50",
   " out of 100 and your section scores are: personal info ", "N/A",
   ", experience ", "N/A", ", education ", "N/A",
   ", skills ", "N/A", ", projects ", "N/A"]

/-- A state with a file selected and a previously stored response body,
used as a concrete submit scenario. -/
def c4State : AppState :=
  ⟨FileSel.single exampleFile, StoredResponse.data (JValue.num 1), true⟩

/-- C1 counterexample: in revision `src/src/App.jsx` the upload button has
no disabled attribute at all, so with no file selected (and not loading)
the submit control is still enabled, refuting the claim for that
revision. -/
theorem c1_counterexample :
    fileSelTruthy FileSel.nullSel = false ∧
    (renderPage_App ⟨FileSel.nullSel, StoredResponse.absent, false⟩).uploadDisabled = false :=
  ⟨rfl, rfl⟩

/-- C1 amended: in revision `part_001` the submit control is disabled
whenever no file is selected or the loading flag is set. -/
theorem c1_theorem (st : AppState)
    (h : fileSelTruthy st.files = false ∨ st.loading = true) :
    (renderPage_part001 st).uploadDisabled = true := by
  rcases h with h | h <;> simp [renderPage_part001, h]

/-- C1 witness: the amended theorem at a concrete state with no file
selected. -/
theorem c1_witness :
    fileSelTruthy FileSel.nullSel = false ∧
    (renderPage_part001 ⟨FileSel.nullSel, StoredResponse.absent, false⟩).uploadDisabled = true :=
  ⟨rfl, c1_theorem ⟨FileSel.nullSel, StoredResponse.absent, false⟩ (Or.inl rfl)⟩

/-- C2 counterexample: on a failed request, `part_000` leaves the loading
flag true (its catch block never clears it), and in `src/src/App.jsx` a
ReferenceError (the unbound name `err` in the catch block) escapes the
submit operation, refuting the claim for those revisions. -/
theorem c2_counterexample :
    (handleUpload_part000 c4State HttpOutcome.failure).loading = true ∧
    (handleUpload_App c4State HttpOutcome.failure).escapedException =
      some JsErr.referenceError :=
  ⟨rfl, rfl⟩

/-- C2 amended: in revision `part_001`, every failed request settles with
the loading flag false and no exception escaping the submit operation. -/
theorem c2_theorem (env : Option String) (st : AppState) :
    (handleUpload_part001 env st HttpOutcome.failure).loading = false ∧
    (handleUpload_part001 env st HttpOutcome.failure).escapedException = none :=
  ⟨rfl, rfl⟩

/-- C3: in every revision, a successful request with parsed body `body`
settles with the response state holding exactly `body` and the loading
flag false. -/
theorem c3_theorem (st : AppState) (body : JValue) (env : Option String) :
    ((handleUpload_App st (HttpOutcome.success body)).response = StoredResponse.data body ∧
     (handleUpload_App st (HttpOutcome.success body)).loading = false) ∧
    ((handleUpload_part000 st (HttpOutcome.success body)).response = StoredResponse.data body ∧
     (handleUpload_part000 st (HttpOutcome.success body)).loading = false) ∧
    ((handleUpload_part001 env st (HttpOutcome.success body)).response = StoredResponse.data body ∧
     (handleUpload_part001 env st (HttpOutcome.success body)).loading = false) :=
  ⟨⟨rfl, rfl⟩, ⟨rfl, rfl⟩, ⟨rfl, rfl⟩⟩

/-- C4 counterexample: on a failed request, `part_000` overwrites the
response state with the caught error object — neither the prior value nor
the absent value — and logs nothing, refuting the claim for that
revision. -/
theorem c4_counterexample :
    (handleUpload_part000 c4State HttpOutcome.failure).response = StoredResponse.errorObject ∧
    StoredResponse.errorObject ≠ c4State.response ∧
    StoredResponse.errorObject ≠ StoredResponse.absent ∧
    (handleUpload_part000 c4State HttpOutcome.failure).loggedError = false :=
  ⟨rfl, fun h => StoredResponse.noConfusion h, fun h => StoredResponse.noConfusion h, rfl⟩

/-- C4 amended: in revision `part_001`, a failed request clears the
response state to the absent value, surfaces the error only via the
diagnostic log, and lets no exception escape. -/
theorem c4_theorem (env : Option String) (st : AppState) :
    (handleUpload_part001 env st HttpOutcome.failure).response = StoredResponse.absent ∧
    (handleUpload_part001 env st HttpOutcome.failure).loggedError = true ∧
    (handleUpload_part001 env st HttpOutcome.failure).escapedException = none :=
  ⟨rfl, rfl, rfl⟩

/-- C5 counterexample: rendering the body with only
grading_result.overall_score = 72 throws a TypeError in
`src/src/App.jsx` (`response.tips.map` with `tips` undefined) and in
`part_000` (`response.parsed_data.personal_info` with `parsed_data`
undefined), refuting the claim for those revisions. -/
theorem c5_counterexample :
    renderPanel_App c5Input = Except.error JsErr.typeError ∧
    renderPanel_part000 c5Input = Except.error JsErr.typeError :=
  ⟨rfl, rfl⟩

/-- C5 amended: in revision `part_001`, rendering the body with only
grading_result.overall_score = 72 does not throw, renders the text 72,
and renders none of the Skills, Projects or Experience sections. -/
theorem c5_theorem :
    renderPanel_part001 c5Input = Except.ok c5Output ∧
    "72" ∈ c5Output ∧ "Skills" ∉ c5Output ∧
    "Projects" ∉ c5Output ∧ "Experience" ∉ c5Output :=
  ⟨rfl, by decide, by decide, by decide, by decide⟩

/-- C6 counterexample: in `src/src/App.jsx` with a stored FileList, the
single multipart entry is the stringified FileList, not a file part — the
body contains exactly one part and zero file parts, refuting the claim
that the body contains one file part holding the selected file. -/
theorem c6_counterexample :
    (handleUpload_App ⟨FileSel.fileList [exampleFile], StoredResponse.absent, false⟩
        (HttpOutcome.success JValue.null)).requests =
      [⟨"http://localhost:3000/uploads",
        [⟨"resume", FormValue.stringPart "[object FileList]"⟩]⟩] ∧
    ((handleUpload_App ⟨FileSel.fileList [exampleFile], StoredResponse.absent, false⟩
        (HttpOutcome.success JValue.null)).requests.map
      (fun r => r.parts.map (fun p => isFilePart p.value))) = [[false]] :=
  ⟨rfl, rfl⟩

/-- C6 amended: every revision issues exactly one outbound POST whose
multipart body contains exactly one part under a single fixed field name;
in `part_000` and `part_001` that part is the selected file as a genuine
file part, while in `src/src/App.jsx` the body holds one stringified
part instead. -/
theorem c6_theorem (st : AppState) (f : FileObj) (outcome : HttpOutcome)
    (env : Option String) (h : st.files = FileSel.single f) :
    (handleUpload_part000 st outcome).requests =
      [⟨"http://localhost:8000/upload-resume", [⟨"file", FormValue.filePart f⟩]⟩] ∧
    (handleUpload_part001 env st outcome).requests =
      [⟨baseUrl_part001 env ++ "/grade-resume", [⟨"file", FormValue.filePart f⟩]⟩] ∧
    ((handleUpload_App st outcome).requests.map (fun r => r.parts.length)) = [1] := by
  cases outcome <;>
    simp [handleUpload_part000, handleUpload_part001, handleUpload_App, h, formDataValue]

/-- C6 witness: the amended theorem at a concrete state holding one
selected file. -/
theorem c6_witness :
    (⟨FileSel.single exampleFile, StoredResponse.absent, false⟩ : AppState).files =
      FileSel.single exampleFile ∧
    (handleUpload_part000 ⟨FileSel.single exampleFile, StoredResponse.absent, false⟩
        (HttpOutcome.success JValue.null)).requests =
      [⟨"http://localhost:8000/upload-resume", [⟨"file", FormValue.filePart exampleFile⟩]⟩] :=
  ⟨rfl, (c6_theorem ⟨FileSel.single exampleFile, StoredResponse.absent, false⟩ exampleFile
    (HttpOutcome.success JValue.null) none rfl).1⟩

/-- C7: in every revision, rendering with the response state absent
(null) produces an empty result panel while the upload controls (file
input and upload button) are still rendered. -/
theorem c7_theorem (files : FileSel) (loading : Bool) :
    ((renderPage_App ⟨files, StoredResponse.absent, loading⟩).panel = Except.ok [] ∧
     (renderPage_App ⟨files, StoredResponse.absent, loading⟩).fileInputShown = true ∧
     (renderPage_App ⟨files, StoredResponse.absent, loading⟩).uploadButtonShown = true) ∧
    ((renderPage_part000 ⟨files, StoredResponse.absent, loading⟩).panel = Except.ok [] ∧
     (renderPage_part000 ⟨files, StoredResponse.absent, loading⟩).fileInputShown = true ∧
     (renderPage_part000 ⟨files, StoredResponse.absent, loading⟩).uploadButtonShown = true) ∧
    ((renderPage_part001 ⟨files, StoredResponse.absent, loading⟩).panel = Except.ok [] ∧
     (renderPage_part001 ⟨files, StoredResponse.absent, loading⟩).fileInputShown = true ∧
     (renderPage_part001 ⟨files, StoredResponse.absent, loading⟩).uploadButtonShown = true) :=
  ⟨⟨rfl, rfl, rfl⟩, ⟨rfl, rfl, rfl⟩, ⟨rfl, rfl, rfl⟩⟩

/-- C8: when the environment value is absent, the `part_001` base URL is
the string "undefined" — the template literal stringifies the absent
value before `||` is applied, so the hardcoded fallback branch is dead and
the request goes to undefined/grade-resume instead of the local
default. When the environment value is set and nonempty it is used. -/
theorem c8_theorem :
    baseUrl_part001 none = "undefined" ∧
    baseUrl_part001 none ≠ "http://localhost:8000" ∧
    ((handleUpload_part001 none ⟨FileSel.single exampleFile, StoredResponse.absent, false⟩
        (HttpOutcome.success JValue.null)).requests.map Request.url) =
      ["undefined/grade-resume"] ∧
    baseUrl_part001 (some "https://api.example.com") = "https://api.example.com" :=
  ⟨rfl, by decide, rfl, rfl⟩

/-- C9: in revision `src/src/App.jsx`, the change handler stores the
whole FileList, and the multipart field "resume" receives its
stringification "[object FileList]" — a string part, not a file part. -/
theorem c9_theorem (targetFiles : List FileObj) (response : StoredResponse)
    (loading : Bool) (outcome : HttpOutcome) :
    selectFile_App targetFiles = FileSel.fileList targetFiles ∧
    formDataValue (FileSel.fileList targetFiles) = FormValue.stringPart "[object FileList]" ∧
    (handleUpload_App ⟨FileSel.fileList targetFiles, response, loading⟩ outcome).requests =
      [⟨"http://localhost:3000/uploads",
        [⟨"resume", FormValue.stringPart "[object FileList]"⟩]⟩] ∧
    isFilePart (formDataValue (FileSel.fileList targetFiles)) = false := by
  cases outcome <;> exact ⟨rfl, rfl, rfl, rfl⟩

/-- C10: in revision `part_001`, the section-score placeholder tests
truthiness, so a score present but equal to 0 renders as N/A, with output
identical to the missing-field case. -/
theorem c10_theorem :
    scorePlaceholder (JValue.num 0) = JValue.str "N/A" ∧
    scorePlaceholder JValue.jsUndefined = JValue.str "N/A" ∧
    renderPanel_part001 c10InputZero = renderPanel_part001 c10InputMissing ∧
    renderPanel_part001 c10InputZero = Except.ok c10Output ∧
    "N/A" ∈ c10Output ∧ "0" ∉ c10Output :=
  ⟨rfl, rfl, rfl, rfl, by decide, by decide⟩

end ResumeGrader
